import Mathlib

/-!
Verification of the video-clipper backend (src/main.py, src/schemas.py).

The Python code is shallowly embedded: pure functions become Lean functions,
the request handler becomes a function threading an explicit server state
(filesystem directories and the persisted job list), machine integers become
Int, and fallible handler code returns Except carrying the HTTP status code
and detail string. The two helpers from database.py (which is not part of
src/) are modelled from the spec and say so in their doc comments.
-/

/-- Boolean list-prefix test, structural so the kernel can evaluate it. -/
def listIsPre : List Char → List Char → Bool
  | [], _ => true
  | _ :: _, [] => false
  | a :: as, b :: bs => a == b && listIsPre as bs

/-- Embedding of Python `s.startswith(p)`. -/
def startswith (s p : String) : Bool := listIsPre p.data s.data

/-- Boolean substring (contiguous) test on char lists; embedding of Python
`k in s` for strings. -/
def listInfix (k : List Char) : List Char → Bool
  | [] => listIsPre k []
  | c :: cs => listIsPre k (c :: cs) || listInfix k cs

/-- Embedding of Python `k in s` on strings. -/
def pyIn (k s : String) : Bool := listInfix k.data s.data

/-- Embedding of Python `a or b` for strings (empty string is falsy). -/
def pyOrS (a b : String) : String := if a = "" then b else a

/-- Embedding of Python `o or b` for an optional string (None and "" falsy). -/
def pyOrOpt (o : Option String) (b : String) : String :=
  match o with
  | none => b
  | some s => pyOrS s b

/-- How Python renders an optional string inside an f-string:
None prints as "None". -/
def pyFStr (o : Option String) : String :=
  match o with
  | none => "None"
  | some s => s

/-- How Python renders a bool inside an f-string. -/
def pyBoolStr (b : Bool) : String := if b then "True" else "False"

/-- Embedding of Python `s.lower()`. Defined on the char list so the kernel
can evaluate it; the keywords are ASCII, so ASCII-only lowercasing matches
Python on every character that can take part in a keyword hit. -/
def pyLower (s : String) : String := String.mk (s.data.map Char.toLower)

/-- The keyword list of `compute_viral_score` (src/main.py:69). -/
def keywords : List String := ["wow", "amazing", "hack", "viral", "money", "tips"]

/-- Whether any scoring keyword occurs, case-insensitively, in the name
(src/main.py:69: `any(k in (name or "").lower() for k in [...])`;
the handler never passes None, so the `name or ""` guard is the identity). -/
def hasKeyword (name : String) : Bool :=
  keywords.any (fun k => pyIn k (pyLower name))

/-- Embedding of `compute_viral_score` (src/main.py:66-71). The Python float
result is always integer-valued, so Int represents it exactly. -/
def compute_viral_score (name : String) (duration : Int) : Int :=
  let base : Int := min 100 (max 0 (20 + duration))
  let base : Int := if hasKeyword name then base + 15 else base
  min 100 base

/-- clamp(x, lo, hi) as the spec writes it. -/
def clamp (x lo hi : Int) : Int := min hi (max lo x)

/-- Multipart form input of `create_job` (src/main.py:75-94). An attached
upload is a filename together with its bytes (modelled as a string).
FastAPI itself enforces `ge=5, le=180` on `duration_seconds` before the
handler body runs; theorems about persisted durations carry that bound as a
hypothesis. -/
structure CreateJobInput where
  source_type : String := "upload"
  file : Option (String × String) := none
  youtube_url : Option String := none
  duration_seconds : Int
  subtitle_mode : String := "none"
  custom_subtitle_text : Option String := none
  subtitle_language : Option String := none
  subtitle_template : Option String := none
  subtitle_position : Option String := some "bottom"
  subtitle_offset_y : Int := 0
  video_effects : Option String := some ""
  aspect_ratio : Option String := some "9:16"
  resolution : Option String := some "1080p"
  hard_subtitles : Bool := false
deriving DecidableEq, Repr

/-- The `Job` document schema (src/schemas.py:34-74). Literal-typed fields are
modelled as strings; the invariants claims prove restore the literal sets. -/
structure Job where
  source_type : String
  filename : Option String := none
  youtube_url : Option String := none
  stored_path : Option String := none
  output_path : Option String := none
  subtitle_path : Option String := none
  duration_seconds : Int
  subtitle_mode : String := "none"
  custom_subtitle_text : Option String := none
  subtitle_language : Option String := none
  subtitle_template : Option String := none
  subtitle_position : String := "bottom"
  subtitle_offset_y : Int := 0
  video_effects : List String := []
  aspect_ratio : Option String := some "9:16"
  resolution : Option String := some "1080p"
  hard_subtitles : Bool := false
  status : String := "pending"
  error_message : Option String := none
  viral_score : Option Int := none
  download_url : Option String := none
  subtitle_url : Option String := none
deriving DecidableEq, Repr

/-- The response model of the intake endpoint (src/main.py:38-43). -/
structure JobResponse where
  id : String
  status : String
  viral_score : Option Int := none
  download_url : Option String := none
  subtitle_url : Option String := none
deriving DecidableEq, Repr

instance {ε α : Type} [DecidableEq ε] [DecidableEq α] : DecidableEq (Except ε α) := fun x y =>
  match x, y with
  | .ok a, .ok b =>
    if h : a = b then isTrue (by rw [h]) else isFalse (fun hc => h (Except.ok.inj hc))
  | .error e, .error f =>
    if h : e = f then isTrue (by rw [h]) else isFalse (fun hc => h (Except.error.inj hc))
  | .ok _, .error _ => isFalse (fun hc => Except.noConfusion hc)
  | .error _, .ok _ => isFalse (fun hc => Except.noConfusion hc)

/-- The three storage directories (src/main.py:30-32), each a list of
(filename, content) pairs in creation order; `os.listdir` is read as the
list of filenames in that order. -/
structure FS where
  uploads : List (String × String) := []
  outputs : List (String × String) := []
  subtitles : List (String × String) := []
deriving DecidableEq, Repr

/-- Server state: the filesystem plus the persisted "job" collection. -/
structure ServerState where
  fs : FS := {}
  db : List Job := []
deriving DecidableEq, Repr

/-- Modelled from the spec: `create_document` lives in database.py, which is
not under src/. Per the spec the persistence collaborator inserts the record
and returns its internal identifier; the spec fixes no identifier format, so
the assigned identifier is passed in as `did`. -/
def create_document (db : List Job) (j : Job) (did : String) : String × List Job :=
  (did, db ++ [j])

/-- The `subtitle_position if subtitle_position in {...} else "bottom"`
coercion at src/main.py:166. -/
def posCoerce (p : Option String) : String :=
  match p with
  | some q => if q = "top" ∨ q = "middle" ∨ q = "bottom" then q else "bottom"
  | none => "bottom"

/-- The metadata line written at the head of the output file
(src/main.py:128-131). -/
def outputMeta (input : CreateJobInput) : String :=
  "OUTPUT|ratio=" ++ pyFStr input.aspect_ratio ++ "|res=" ++ pyFStr input.resolution ++
    "|effects=" ++ pyFStr input.video_effects ++ "|hard_sub=" ++
    pyBoolStr input.hard_subtitles ++ "|pos=" ++ pyFStr input.subtitle_position ++ ":" ++
    toString input.subtitle_offset_y ++ "|tpl=" ++ pyFStr input.subtitle_template ++ "\n"

/-- The style comment line of the subtitle file (src/main.py:143). -/
def styleHint (input : CreateJobInput) : String :=
  "# style template=" ++ pyOrOpt input.subtitle_template "default" ++ ", position=" ++
    pyFStr input.subtitle_position ++ ", offsetY=" ++ toString input.subtitle_offset_y ++ "\n"

/-- The cue text (src/main.py:138): the custom text when truthy, else the
auto placeholder. -/
def subText (input : CreateJobInput) : String :=
  pyOrOpt input.custom_subtitle_text
    ("Auto-generated subtitles (" ++ pyOrOpt input.subtitle_language "auto" ++ ")")

/-- Full content of the generated single-cue SRT file (src/main.py:140-144). -/
def srtContent (input : CreateJobInput) : String :=
  "1\n00:00:00,000 --> 00:00:02,000\n" ++ subText input ++ "\n" ++ styleHint input

/-- Embedding of Python `s.split(",")` on the char list (the separator is a
single character), structural so the kernel can evaluate it; an empty string
yields one empty group, as in Python. -/
def splitOnComma : List Char → List (List Char)
  | [] => [[]]
  | a :: as =>
    match splitOnComma as, a == ',' with
    | r, true => [] :: r
    | [], false => [[a]]
    | g :: gs, false => (a :: g) :: gs

/-- Embedding of Python `s.strip()`: drop whitespace from both ends. -/
def stripChars (l : List Char) : List Char :=
  ((l.dropWhile Char.isWhitespace).reverse.dropWhile Char.isWhitespace).reverse

/-- The effects parse at src/main.py:151:
`[e.strip() for e in (video_effects or "").split(",") if e.strip()]`. -/
def parseEffects (effects : Option String) : List String :=
  ((splitOnComma (pyOrOpt effects "").data).map (fun l => String.mk (stripChars l))).filter
    (fun s => s != "")

/-- Source acquisition (src/main.py:103-122): returns the original name, the
stored filename in the uploads directory, and the stored bytes, or the 400
error the handler raises. Python `if not youtube_url` treats both None and
the empty string as missing. -/
def sourceAcq (job_id : String) (input : CreateJobInput) :
    Except (Nat × String) (String × String × String) :=
  if input.source_type = "upload" then
    match input.file with
    | none => .error (400, "File is required for upload source")
    | some (fname, content) => .ok (fname, job_id ++ "_" ++ fname, content)
  else
    match input.youtube_url with
    | none => .error (400, "youtube_url is required for youtube source")
    | some u =>
      if u = "" then .error (400, "youtube_url is required for youtube source")
      else
        let name := "youtube_" ++ job_id ++ ".mp4"
        .ok (name, name, "SIMULATED_YT_DOWNLOAD from " ++ u)

/-- Embedding of the intake handler `create_job` (src/main.py:74-185).
`job_id` stands for the fresh `str(uuid.uuid4())` of line 101 and `did` for
the identifier the persistence collaborator assigns in `create_document`
(line 177). An HTTPException becomes an `Except.error (status, detail)`
paired with the unchanged server state, faithful to the source order in
which every raise happens before any file write or insert. -/
def create_job (st : ServerState) (job_id did : String) (input : CreateJobInput) :
    Except (Nat × String) JobResponse × ServerState :=
  if input.subtitle_mode ≠ "none" ∧ input.subtitle_mode ≠ "auto" ∧ input.subtitle_mode ≠ "custom" then
    (.error (400, "Invalid subtitle_mode"), st)
  else if input.source_type ≠ "upload" ∧ input.source_type ≠ "youtube" then
    (.error (400, "Invalid source_type"), st)
  else
    match sourceAcq job_id input with
    | .error e => (.error e, st)
    | .ok (original_name, stored_name, stored_content) =>
      let uploads' := st.fs.uploads ++ [(stored_name, stored_content)]
      let outName := job_id ++ ".mp4"
      let outputs' := st.fs.outputs ++ [(outName, outputMeta input ++ "FAKE_MP4_DATA")]
      let subFile : Option (String × String) :=
        if input.subtitle_mode = "auto" ∨ input.subtitle_mode = "custom" then
          some (job_id ++ ".srt", srtContent input)
        else none
      let subtitles' := match subFile with
        | some f => st.fs.subtitles ++ [f]
        | none => st.fs.subtitles
      let name_for_score := pyOrS original_name (pyOrOpt input.youtube_url "video")
      let score := compute_viral_score name_for_score input.duration_seconds
      let job : Job := {
        source_type := input.source_type
        filename := some original_name
        youtube_url := input.youtube_url
        stored_path := some ("uploads/" ++ stored_name)
        output_path := some ("outputs/" ++ outName)
        subtitle_path := subFile.map (fun f => "subtitles/" ++ f.1)
        duration_seconds := input.duration_seconds
        subtitle_mode := input.subtitle_mode
        custom_subtitle_text := input.custom_subtitle_text
        subtitle_language := input.subtitle_language
        subtitle_template := input.subtitle_template
        subtitle_position := posCoerce input.subtitle_position
        subtitle_offset_y := input.subtitle_offset_y
        video_effects := parseEffects input.video_effects
        aspect_ratio := input.aspect_ratio
        resolution := input.resolution
        hard_subtitles := input.hard_subtitles
        status := "done"
        error_message := none
        viral_score := some score
        download_url := some ("/api/download/" ++ job_id)
        subtitle_url := subFile.map (fun _ => "/api/subtitles/" ++ job_id) }
      let res := create_document st.db job did
      (.ok { id := res.1, status := job.status, viral_score := some score,
             download_url := job.download_url, subtitle_url := job.subtitle_url },
       { fs := { uploads := uploads', outputs := outputs', subtitles := subtitles' },
         db := res.2 })

/-- Embedding of `download_output` (src/main.py:188-198) over the list of
filenames in the outputs directory: exact name first, then the first
directory entry that starts with the identifier, else 404. The returned
string is the filename served. -/
def download_output (files : List String) (job_id : String) :
    Except (Nat × String) String :=
  let exact := job_id ++ ".mp4"
  if exact ∈ files then .ok exact
  else
    match files.filter (fun f => startswith f job_id) with
    | [] => .error (404, "File not found")
    | c :: _ => .ok c

/-- Embedding of `download_subtitles` (src/main.py:201-206): exact name only,
else 404. -/
def download_subtitles (files : List String) (job_id : String) :
    Except (Nat × String) String :=
  let exact := job_id ++ ".srt"
  if exact ∈ files then .ok exact else .error (404, "Subtitle not found")

/-- The subtitle lookup as the spec words it for BOTH retrieval endpoints
(exact expected filename, then a fallback scan for any filename beginning
with the identifier). Written from the spec sentence only, to be compared
with `download_subtitles` above. -/
def download_subtitles_speced (files : List String) (job_id : String) :
    Except (Nat × String) String :=
  let exact := job_id ++ ".srt"
  if exact ∈ files then .ok exact
  else
    match files.filter (fun f => startswith f job_id) with
    | [] => .error (404, "Subtitle not found")
    | c :: _ => .ok c

/-- A stored document as the listing endpoint sees it: a Python dict from
field names to (stringly rendered) values, as an association list in
insertion order. -/
abbrev Doc := List (String × String)

/-- Python `d.get(key)` on a dict. -/
def dictGet : Doc → String → Option String
  | [], _ => none
  | (k, v) :: rest, key => if k = key then some v else dictGet rest key

/-- Python `d[key] = v` on a dict: overwrite in place, else append. -/
def dictSet : Doc → String → String → Doc
  | [], key, v => [(key, v)]
  | (k, w) :: rest, key, v =>
    if k = key then (key, v) :: rest else (k, w) :: dictSet rest key v

/-- Python `d.pop(key, None)` on a dict (a dict holds each key at most once,
so removing every occurrence is the same operation). -/
def dictPop (d : Doc) (key : String) : Doc := d.filter (fun p => p.1 != key)

/-- Python `str(d.get("_id"))` (src/main.py:218): None renders as "None". -/
def strOfGet (d : Doc) : String :=
  match dictGet d "_id" with
  | some v => v
  | none => "None"

/-- The per-document normalization of the listing endpoint
(src/main.py:217-219): set `id` from the internal identifier, then drop the
internal field. -/
def normalizeDoc (d : Doc) : Doc := dictPop (dictSet d "id" (strOfGet d)) "_id"

/-- Modelled from the spec: `get_documents` lives in database.py, which is
not under src/. Per the spec it lists the persisted job records "capped at a
caller-supplied limit"; a non-positive cap yields no records. -/
def get_documents (records : List Doc) (limit : Int) : List Doc :=
  records.take limit.toNat

/-- Embedding of the listing endpoint `list_jobs` (src/main.py:213-222):
`limit or 20` maps an absent or zero limit to 20, then each returned record
is normalized. The modelled persistence call cannot fail, so the
`except` arm (a 500 echoing the message) is never taken and is omitted. -/
def list_jobs (records : List Doc) (limit : Option Int) : List Doc :=
  let eff : Int := match limit with
    | none => 20
    | some n => if n = 0 then 20 else n
  (get_documents records eff).map normalizeDoc

/-- A sample ready-to-succeed upload submission used by concrete witnesses. -/
def sampleInput : CreateJobInput :=
  { source_type := "upload"
    file := some ("myclip.mp4", "RAWBYTES")
    duration_seconds := 30
    subtitle_mode := "custom"
    custom_subtitle_text := some "Hello" }

/-- The same upload submission with subtitle_mode "none". -/
def sampleInputNone : CreateJobInput :=
  { source_type := "upload"
    file := some ("myclip.mp4", "RAWBYTES")
    duration_seconds := 30
    subtitle_mode := "none" }

/-- A youtube submission with an empty custom subtitle text. -/
def sampleInputEmptyText : CreateJobInput :=
  { source_type := "youtube"
    youtube_url := some "https://youtu.be/abc"
    duration_seconds := 95
    subtitle_mode := "custom"
    custom_subtitle_text := some "" }

/-- The response `create_job {} "jobuuid" "dbid" sampleInput` produces. -/
def runCustomResp : JobResponse :=
  { id := "dbid", status := "done", viral_score := some 50,
    download_url := some "/api/download/jobuuid",
    subtitle_url := some "/api/subtitles/jobuuid" }

/-- The job record `create_job {} "jobuuid" "dbid" sampleInput` persists. -/
def runCustomJob : Job :=
  { source_type := "upload", filename := some "myclip.mp4",
    stored_path := some "uploads/jobuuid_myclip.mp4",
    output_path := some "outputs/jobuuid.mp4",
    subtitle_path := some "subtitles/jobuuid.srt",
    duration_seconds := 30, subtitle_mode := "custom",
    custom_subtitle_text := some "Hello", subtitle_position := "bottom",
    status := "done", viral_score := some 50,
    download_url := some "/api/download/jobuuid",
    subtitle_url := some "/api/subtitles/jobuuid" }

/-- The server state `create_job {} "jobuuid" "dbid" sampleInput` leaves. -/
def runCustomSt : ServerState :=
  { fs := { uploads := [("jobuuid_myclip.mp4", "RAWBYTES")],
            outputs := [("jobuuid.mp4",
              "OUTPUT|ratio=9:16|res=1080p|effects=|hard_sub=False|pos=bottom:0|tpl=None\nFAKE_MP4_DATA")],
            subtitles := [("jobuuid.srt",
              "1\n00:00:00,000 --> 00:00:02,000\nHello\n# style template=default, position=bottom, offsetY=0\n")] },
    db := [runCustomJob] }

/-- The response `create_job {} "jobuuid" "dbid" sampleInputNone` produces. -/
def runNoneResp : JobResponse :=
  { id := "dbid", status := "done", viral_score := some 50,
    download_url := some "/api/download/jobuuid", subtitle_url := none }

/-- The server state `create_job {} "jobuuid" "dbid" sampleInputNone` leaves. -/
def runNoneSt : ServerState :=
  { fs := { uploads := [("jobuuid_myclip.mp4", "RAWBYTES")],
            outputs := [("jobuuid.mp4",
              "OUTPUT|ratio=9:16|res=1080p|effects=|hard_sub=False|pos=bottom:0|tpl=None\nFAKE_MP4_DATA")],
            subtitles := [] },
    db := [{ source_type := "upload", filename := some "myclip.mp4",
             stored_path := some "uploads/jobuuid_myclip.mp4",
             output_path := some "outputs/jobuuid.mp4",
             duration_seconds := 30, subtitle_mode := "none",
             subtitle_position := "bottom", status := "done",
             viral_score := some 50,
             download_url := some "/api/download/jobuuid" }] }

/-- The response `create_job {} "jobuuid" "dbid" sampleInputEmptyText`
produces. -/
def runEmptyResp : JobResponse :=
  { id := "dbid", status := "done", viral_score := some 100,
    download_url := some "/api/download/jobuuid",
    subtitle_url := some "/api/subtitles/jobuuid" }

/-- The server state `create_job {} "jobuuid" "dbid" sampleInputEmptyText`
leaves. -/
def runEmptySt : ServerState :=
  { fs := { uploads := [("youtube_jobuuid.mp4",
              "SIMULATED_YT_DOWNLOAD from https://youtu.be/abc")],
            outputs := [("jobuuid.mp4",
              "OUTPUT|ratio=9:16|res=1080p|effects=|hard_sub=False|pos=bottom:0|tpl=None\nFAKE_MP4_DATA")],
            subtitles := [("jobuuid.srt",
              "1\n00:00:00,000 --> 00:00:02,000\nAuto-generated subtitles (auto)\n# style template=default, position=bottom, offsetY=0\n")] },
    db := [{ source_type := "youtube", filename := some "youtube_jobuuid.mp4",
             youtube_url := some "https://youtu.be/abc",
             stored_path := some "uploads/youtube_jobuuid.mp4",
             output_path := some "outputs/jobuuid.mp4",
             subtitle_path := some "subtitles/jobuuid.srt",
             duration_seconds := 95, subtitle_mode := "custom",
             custom_subtitle_text := some "", subtitle_position := "bottom",
             status := "done", viral_score := some 100,
             download_url := some "/api/download/jobuuid",
             subtitle_url := some "/api/subtitles/jobuuid" }] }

/-- A submission with an invalid subtitle mode, used by a concrete witness. -/
def badModeInput : CreateJobInput :=
  { duration_seconds := 30, subtitle_mode := "fancy" }

/-- A youtube submission whose URL contains the keyword "money". -/
def kwUrlInput : CreateJobInput :=
  { source_type := "youtube"
    youtube_url := some "https://x.com/make-money-fast"
    duration_seconds := 30
    subtitle_mode := "none" }

/-- The response `create_job {} "jobuuid" "dbid" kwUrlInput` produces: the
scored name is the synthetic youtube_jobuuid.mp4, so no keyword bonus. -/
def kwUrlResp : JobResponse :=
  { id := "dbid", status := "done", viral_score := some 50,
    download_url := some "/api/download/jobuuid", subtitle_url := none }

/-- The server state `create_job {} "jobuuid" "dbid" kwUrlInput` leaves. -/
def kwUrlSt : ServerState :=
  { fs := { uploads := [("youtube_jobuuid.mp4",
              "SIMULATED_YT_DOWNLOAD from https://x.com/make-money-fast")],
            outputs := [("jobuuid.mp4",
              "OUTPUT|ratio=9:16|res=1080p|effects=|hard_sub=False|pos=bottom:0|tpl=None\nFAKE_MP4_DATA")],
            subtitles := [] },
    db := [{ source_type := "youtube", filename := some "youtube_jobuuid.mp4",
             youtube_url := some "https://x.com/make-money-fast",
             stored_path := some "uploads/youtube_jobuuid.mp4",
             output_path := some "outputs/jobuuid.mp4",
             duration_seconds := 30, subtitle_mode := "none",
             subtitle_position := "bottom", status := "done",
             viral_score := some 50,
             download_url := some "/api/download/jobuuid" }] }

/-- An upload submission whose filename contains the keyword "amazing". -/
def sampleInputKw : CreateJobInput :=
  { source_type := "upload"
    file := some ("amazing_trick.mp4", "RAWBYTES")
    duration_seconds := 30
    subtitle_mode := "none" }

/-- The response `create_job {} "jobuuid" "dbid" sampleInputKw` produces. -/
def kwNameResp : JobResponse :=
  { id := "dbid", status := "done", viral_score := some 65,
    download_url := some "/api/download/jobuuid", subtitle_url := none }

/-- The server state `create_job {} "jobuuid" "dbid" sampleInputKw` leaves. -/
def kwNameSt : ServerState :=
  { fs := { uploads := [("jobuuid_amazing_trick.mp4", "RAWBYTES")],
            outputs := [("jobuuid.mp4",
              "OUTPUT|ratio=9:16|res=1080p|effects=|hard_sub=False|pos=bottom:0|tpl=None\nFAKE_MP4_DATA")],
            subtitles := [] },
    db := [{ source_type := "upload", filename := some "amazing_trick.mp4",
             stored_path := some "uploads/jobuuid_amazing_trick.mp4",
             output_path := some "outputs/jobuuid.mp4",
             duration_seconds := 30, subtitle_mode := "none",
             subtitle_position := "bottom", status := "done",
             viral_score := some 65,
             download_url := some "/api/download/jobuuid" }] }

theorem compute_viral_score_bounds (name : String) (d : Int) :
    0 ≤ compute_viral_score name d ∧ compute_viral_score name d ≤ 100 := by
  unfold compute_viral_score
  split <;> simp [Int.min_def, Int.max_def] <;> split <;> omega

/-- C1: for every duration d in [5,180] and a source name without keyword
hits, the computed viral score equals clamp(20+d, 0, 100). -/
theorem c1_score_no_keyword (name : String) (d : Int)
    (h5 : 5 ≤ d) (h180 : d ≤ 180) (hk : hasKeyword name = false) :
    compute_viral_score name d = clamp (20 + d) 0 100 := by
  unfold compute_viral_score clamp
  rw [hk]
  simp [Int.min_def, Int.max_def]
  omega

theorem c1_score_no_keyword_witness :
    (5:Int) ≤ 30 ∧ (30:Int) ≤ 180 ∧ hasKeyword "clip.mp4" = false ∧
      compute_viral_score "clip.mp4" 30 = clamp (20 + 30) 0 100 :=
  ⟨by decide, by decide, by decide,
    c1_score_no_keyword "clip.mp4" 30 (by decide) (by decide) (by decide)⟩

/-- With a keyword hit on the name actually scored, the score is the clamped
base plus 15, clamped again at 100. -/
theorem compute_viral_score_keyword (name : String) (d : Int)
    (hk : hasKeyword name = true) :
    compute_viral_score name d = min 100 (clamp (20 + d) 0 100 + 15) := by
  unfold compute_viral_score clamp
  rw [hk]
  simp

/-- C3: the intake handler answers 400 and leaves the server state (files and
job records) untouched when the subtitle mode is invalid, the source type is
invalid, an upload has no file attached, or a youtube source has no URL. -/
theorem c3_validation_rejects (st : ServerState) (jid did : String) (input : CreateJobInput)
    (h : (input.subtitle_mode ≠ "none" ∧ input.subtitle_mode ≠ "auto" ∧ input.subtitle_mode ≠ "custom")
       ∨ (input.source_type ≠ "upload" ∧ input.source_type ≠ "youtube")
       ∨ (input.source_type = "upload" ∧ input.file = none)
       ∨ (input.source_type = "youtube" ∧ input.youtube_url = none)) :
    ∃ d, create_job st jid did input = (.error (400, d), st) := by
  rcases h with ⟨h1, h2, h3⟩ | ⟨h1, h2⟩ | ⟨hs, hf⟩ | ⟨hs, hu⟩
  · exact ⟨"Invalid subtitle_mode", by simp [create_job, h1, h2, h3]⟩
  · by_cases hm : input.subtitle_mode ≠ "none" ∧ input.subtitle_mode ≠ "auto" ∧ input.subtitle_mode ≠ "custom"
    · exact ⟨"Invalid subtitle_mode", by simp [create_job, hm.1, hm.2.1, hm.2.2]⟩
    · exact ⟨"Invalid source_type", by simp [create_job, hm, h1, h2]⟩
  · by_cases hm : input.subtitle_mode ≠ "none" ∧ input.subtitle_mode ≠ "auto" ∧ input.subtitle_mode ≠ "custom"
    · exact ⟨"Invalid subtitle_mode", by simp [create_job, hm.1, hm.2.1, hm.2.2]⟩
    · exact ⟨"File is required for upload source", by simp [create_job, sourceAcq, hm, hs, hf]⟩
  · by_cases hm : input.subtitle_mode ≠ "none" ∧ input.subtitle_mode ≠ "auto" ∧ input.subtitle_mode ≠ "custom"
    · exact ⟨"Invalid subtitle_mode", by simp [create_job, hm.1, hm.2.1, hm.2.2]⟩
    · exact ⟨"youtube_url is required for youtube source", by simp [create_job, sourceAcq, hm, hs, hu]⟩

/-- C4: a successful submission with subtitle_mode "none" creates no subtitle
file, persists a job record without subtitle_path, and answers with a null
subtitle_url. -/
theorem c4_none_mode_no_subtitle (st : ServerState) (jid did : String) (input : CreateJobInput)
    (resp : JobResponse) (st' : ServerState)
    (hmode : input.subtitle_mode = "none")
    (h : create_job st jid did input = (.ok resp, st')) :
    resp.subtitle_url = none ∧ st'.fs.subtitles = st.fs.subtitles ∧
      ∃ j, st'.db = st.db ++ [j] ∧ j.subtitle_path = none ∧ j.subtitle_url = none := by
  unfold create_job at h
  rw [hmode] at h
  simp at h
  split at h
  · simp at h
  · split at h
    · simp at h
    · simp [create_document] at h
      obtain ⟨hresp, hst⟩ := h
      subst hresp hst
      refine ⟨rfl, rfl, _, rfl, rfl, rfl⟩

theorem listIsPre_append (l t : List Char) : listIsPre l (l ++ t) = true := by
  induction l with
  | nil => rfl
  | cons a as ih => simp [listIsPre, ih]

theorem startswith_append (q t : String) : startswith (q ++ t) q = true := by
  cases q with
  | mk l => cases t with
    | mk m => exact listIsPre_append l m

/-- Any filename the output lookup serves starts with the looked-up
identifier. -/
theorem download_output_ok_start (files : List String) (q f : String)
    (h : download_output files q = .ok f) : startswith f q = true := by
  unfold download_output at h
  split at h
  · simp only [] at h
    split at h
    · simp only [Except.ok.injEq] at h
      subst h
      exact startswith_append q ".mp4"
    · simp at h
  · rename_i c tail hfil
    simp only [] at h
    split at h
    · simp only [Except.ok.injEq] at h
      subst h
      exact startswith_append q ".mp4"
    · simp only [Except.ok.injEq] at h
      subst h
      have hm : c ∈ files.filter (fun g => startswith g q) := by
        rw [hfil]
        exact List.mem_cons_self _ _
      exact (List.mem_filter.mp hm).2

/-- Inversion of the success case of `create_job`: the source was acquired,
the subtitle mode had passed validation, and the response and new state are
exactly the records the handler builds. -/
theorem create_job_ok_inv (st : ServerState) (jid did : String) (input : CreateJobInput)
    (resp : JobResponse) (st' : ServerState)
    (h : create_job st jid did input = (.ok resp, st')) :
    ∃ original_name stored_name stored_content,
      sourceAcq jid input = .ok (original_name, stored_name, stored_content) ∧
      (input.subtitle_mode = "none" ∨ input.subtitle_mode = "auto" ∨ input.subtitle_mode = "custom") ∧
      (let subFile : Option (String × String) :=
         if input.subtitle_mode = "auto" ∨ input.subtitle_mode = "custom" then
           some (jid ++ ".srt", srtContent input)
         else none
       let score := compute_viral_score
         (pyOrS original_name (pyOrOpt input.youtube_url "video")) input.duration_seconds
       resp = { id := did, status := "done", viral_score := some score,
                download_url := some ("/api/download/" ++ jid),
                subtitle_url := subFile.map (fun _ => "/api/subtitles/" ++ jid) } ∧
       st' = { fs := { uploads := st.fs.uploads ++ [(stored_name, stored_content)],
                       outputs := st.fs.outputs ++
                         [(jid ++ ".mp4", outputMeta input ++ "FAKE_MP4_DATA")],
                       subtitles := match subFile with
                         | some fl => st.fs.subtitles ++ [fl]
                         | none => st.fs.subtitles },
               db := st.db ++
                 [{ source_type := input.source_type, filename := some original_name,
                    youtube_url := input.youtube_url,
                    stored_path := some ("uploads/" ++ stored_name),
                    output_path := some ("outputs/" ++ (jid ++ ".mp4")),
                    subtitle_path := subFile.map (fun fl => "subtitles/" ++ fl.1),
                    duration_seconds := input.duration_seconds,
                    subtitle_mode := input.subtitle_mode,
                    custom_subtitle_text := input.custom_subtitle_text,
                    subtitle_language := input.subtitle_language,
                    subtitle_template := input.subtitle_template,
                    subtitle_position := posCoerce input.subtitle_position,
                    subtitle_offset_y := input.subtitle_offset_y,
                    video_effects := parseEffects input.video_effects,
                    aspect_ratio := input.aspect_ratio,
                    resolution := input.resolution,
                    hard_subtitles := input.hard_subtitles,
                    status := "done", error_message := none,
                    viral_score := some score,
                    download_url := some ("/api/download/" ++ jid),
                    subtitle_url := subFile.map (fun _ => "/api/subtitles/" ++ jid) }] }) := by
  by_cases hm : input.subtitle_mode ≠ "none" ∧ input.subtitle_mode ≠ "auto" ∧ input.subtitle_mode ≠ "custom"
  · rw [create_job, if_pos hm] at h
    simp at h
  · have hmode : input.subtitle_mode = "none" ∨ input.subtitle_mode = "auto" ∨ input.subtitle_mode = "custom" := by
      by_contra hc
      push_neg at hc
      exact hm ⟨hc.1, hc.2.1, hc.2.2⟩
    rw [create_job, if_neg hm] at h
    split at h
    · simp at h
    · split at h
      · simp at h
      · rename_i heq
        simp only [create_document, Prod.mk.injEq, Except.ok.injEq] at h
        obtain ⟨hresp, hst⟩ := h
        exact ⟨_, _, _, heq, hmode, hresp.symm, hst.symm⟩

/-- C5: a successful submission with subtitle_mode "custom" and custom text
"Hello" writes a single-cue SRT whose cue text is exactly "Hello": sequence
number 1, time range 00:00:00,000 to 00:00:02,000, then the style comment
line recording template, position and offset. -/
theorem c5_custom_hello_cue (st : ServerState) (jid did : String) (input : CreateJobInput)
    (resp : JobResponse) (st' : ServerState)
    (hmode : input.subtitle_mode = "custom")
    (htext : input.custom_subtitle_text = some "Hello")
    (h : create_job st jid did input = (.ok resp, st')) :
    st'.fs.subtitles = st.fs.subtitles ++
      [(jid ++ ".srt",
        "1\n00:00:00,000 --> 00:00:02,000\n" ++ "Hello" ++ "\n" ++ styleHint input)] := by
  obtain ⟨n, sn, sc, hacq, hmem, hresp, hst⟩ := create_job_ok_inv st jid did input resp st' h
  subst hst
  simp [hmode, srtContent, subText, htext, pyOrOpt, pyOrS]

/-- C10: a successful submission in a subtitle-producing mode (auto or
custom) whose custom text is empty or missing gets the auto placeholder as
cue text, not an empty cue. -/
theorem c10_empty_text_placeholder (st : ServerState) (jid did : String) (input : CreateJobInput)
    (resp : JobResponse) (st' : ServerState)
    (hmode : input.subtitle_mode = "auto" ∨ input.subtitle_mode = "custom")
    (htext : input.custom_subtitle_text = some "" ∨ input.custom_subtitle_text = none)
    (h : create_job st jid did input = (.ok resp, st')) :
    st'.fs.subtitles = st.fs.subtitles ++
      [(jid ++ ".srt",
        "1\n00:00:00,000 --> 00:00:02,000\n" ++
          ("Auto-generated subtitles (" ++ pyOrOpt input.subtitle_language "auto" ++ ")") ++
          "\n" ++ styleHint input)] := by
  obtain ⟨n, sn, sc, hacq, hmem, hresp, hst⟩ := create_job_ok_inv st jid did input resp st' h
  subst hst
  rcases hmode with hmode | hmode <;> rcases htext with htext | htext <;>
    simp [hmode, srtContent, subText, htext, pyOrOpt, pyOrS]

theorem posCoerce_mem (p : Option String) :
    posCoerce p = "top" ∨ posCoerce p = "middle" ∨ posCoerce p = "bottom" := by
  rcases p with _ | q
  · simp [posCoerce]
  · by_cases hc : q = "top" ∨ q = "middle" ∨ q = "bottom"
    · simp only [posCoerce]
      rw [if_pos hc]
      exact hc
    · simp only [posCoerce]
      rw [if_neg hc]
      simp

theorem posCoerce_invalid (q : String)
    (h1 : q ≠ "top") (h2 : q ≠ "middle") (h3 : q ≠ "bottom") :
    posCoerce (some q) = "bottom" := by
  simp [posCoerce, h1, h2, h3]

/-- C7: every job record the handler persists has its duration within
[5,180] (the framework bound, carried as a hypothesis), a subtitle mode from
the validated set, a subtitle position from the three allowed values with
"bottom" substituted for any invalid supplied value, a viral score within
[0,100] whenever present, and status "done". -/
theorem c7_persisted_invariants (st : ServerState) (jid did : String) (input : CreateJobInput)
    (resp : JobResponse) (st' : ServerState)
    (hd5 : 5 ≤ input.duration_seconds) (hd180 : input.duration_seconds ≤ 180)
    (h : create_job st jid did input = (.ok resp, st')) :
    ∃ j, st'.db = st.db ++ [j]
      ∧ 5 ≤ j.duration_seconds ∧ j.duration_seconds ≤ 180
      ∧ (j.subtitle_mode = "none" ∨ j.subtitle_mode = "auto" ∨ j.subtitle_mode = "custom")
      ∧ (j.subtitle_position = "top" ∨ j.subtitle_position = "middle" ∨ j.subtitle_position = "bottom")
      ∧ (∀ q, input.subtitle_position = some q → q ≠ "top" → q ≠ "middle" → q ≠ "bottom" →
            j.subtitle_position = "bottom")
      ∧ (∀ s, j.viral_score = some s → 0 ≤ s ∧ s ≤ 100)
      ∧ j.status = "done" := by
  obtain ⟨n, sn, sc, hacq, hmem, hresp, hst⟩ := create_job_ok_inv st jid did input resp st' h
  subst hst
  refine ⟨_, rfl, hd5, hd180, hmem, posCoerce_mem _, ?_, ?_, rfl⟩
  · intro q hq h1 h2 h3
    show posCoerce input.subtitle_position = "bottom"
    rw [hq]
    exact posCoerce_invalid q h1 h2 h3
  · intro s hs
    have hs' : some (compute_viral_score
        (pyOrS n (pyOrOpt input.youtube_url "video")) input.duration_seconds) = some s := hs
    obtain rfl := Option.some.inj hs'
    exact compute_viral_score_bounds _ _

/-- C9: the response id of a successful submission is the identifier the
persistence collaborator assigned, distinct from the freshly generated job
identifier that the download URL, subtitle URL and artifact filenames embed;
hence the download endpoint queried with the response id never serves the
artifact whose URL was returned. The two disequality hypotheses model that a
collaborator-assigned identifier never coincides with (nor prefixes the
artifact filename of) a freshly generated UUID. -/
theorem c9_response_id_not_artifact_id (st : ServerState) (jid did : String)
    (input : CreateJobInput) (resp : JobResponse) (st' : ServerState)
    (hne : did ≠ jid)
    (hpre : startswith (jid ++ ".mp4") did = false)
    (h : create_job st jid did input = (.ok resp, st')) :
    resp.id = did ∧ resp.id ≠ jid
      ∧ resp.download_url = some ("/api/download/" ++ jid)
      ∧ (resp.subtitle_url = none ∨ resp.subtitle_url = some ("/api/subtitles/" ++ jid))
      ∧ (jid ++ ".mp4") ∈ (st'.fs.outputs.map Prod.fst)
      ∧ download_output (st'.fs.outputs.map Prod.fst) did ≠ .ok (jid ++ ".mp4") := by
  obtain ⟨n, sn, sc, hacq, hmem, hresp, hst⟩ := create_job_ok_inv st jid did input resp st' h
  subst hresp
  subst hst
  refine ⟨rfl, hne, rfl, ?_, ?_, ?_⟩
  · by_cases hsub : input.subtitle_mode = "auto" ∨ input.subtitle_mode = "custom"
    · right
      simp [hsub]
    · left
      simp [hsub]
  · simp
  · intro hcontra
    have hts := download_output_ok_start _ _ _ hcontra
    rw [hts] at hpre
    exact Bool.noConfusion hpre

/-- C6 counterexample: with a subtitles directory holding only a file whose
name begins with the identifier but is not the exact expected name, the code
answers 404 while the claimed fallback lookup would serve the file. -/
theorem c6_counterexample :
    download_subtitles ["abc123.srt"] "abc" = .error (404, "Subtitle not found") ∧
      download_subtitles_speced ["abc123.srt"] "abc" = .ok "abc123.srt" := by
  constructor
  · rfl
  · rfl

/-- C6 amended: only the output-video endpoint uses the exact-name lookup
with a prefix-scan fallback (404 exactly when no stored filename begins with
the identifier); the subtitle endpoint tries only the exact expected
filename and answers 404 whenever that exact file is absent, even when a
prefix match exists. -/
theorem c6_amended_lookup (files subs : List String) (jid : String) :
    (download_output files jid = .error (404, "File not found") ↔
      ∀ f ∈ files, startswith f jid = false) ∧
    (download_subtitles subs jid = .error (404, "Subtitle not found") ↔
      (jid ++ ".srt") ∉ subs) := by
  constructor
  · unfold download_output
    simp only []
    by_cases hc : (jid ++ ".mp4") ∈ files
    · rw [if_pos hc]
      refine iff_of_false (by simp) ?_
      intro hall
      have hx := hall _ hc
      rw [startswith_append] at hx
      exact Bool.noConfusion hx
    · rw [if_neg hc]
      split
      · rename_i hfil
        refine iff_of_true rfl ?_
        intro f hf
        have hnp := List.filter_eq_nil_iff.mp hfil f hf
        simpa using hnp
      · rename_i c tail hfil
        refine iff_of_false (by simp) ?_
        intro hall
        have hcmem : c ∈ files.filter (fun g => startswith g jid) := by
          rw [hfil]
          exact List.mem_cons_self _ _
        have h2 := (List.mem_filter.mp hcmem).2
        rw [hall _ (List.mem_filter.mp hcmem).1] at h2
        exact Bool.noConfusion h2
  · unfold download_subtitles
    simp only []
    by_cases hc : (jid ++ ".srt") ∈ subs
    · rw [if_pos hc]
      exact iff_of_false (by simp) (fun hn => hn hc)
    · rw [if_neg hc]
      exact iff_of_true rfl hc

theorem dictGet_dictPop_self (d : Doc) (k : String) :
    dictGet (dictPop d k) k = none := by
  induction d with
  | nil => rfl
  | cons p rest ih =>
    obtain ⟨k1, v1⟩ := p
    by_cases hp : k1 = k
    · subst hp
      simpa [dictPop, List.filter_cons] using ih
    · have hb : (k1 != k) = true := by simpa using hp
      simpa [dictPop, List.filter_cons, hb, dictGet, hp] using ih

theorem dictGet_dictPop_of_ne (d : Doc) (k k' : String) (h : k' ≠ k) :
    dictGet (dictPop d k) k' = dictGet d k' := by
  induction d with
  | nil => rfl
  | cons p rest ih =>
    obtain ⟨k1, v1⟩ := p
    have ih' : dictGet (List.filter (fun p => p.1 != k) rest) k' = dictGet rest k' := by
      simpa [dictPop] using ih
    by_cases hp : k1 = k
    · subst hp
      have hk : k1 ≠ k' := fun hx => h hx.symm
      simp [dictPop, List.filter_cons, dictGet, hk, ih']
    · have hb : (k1 != k) = true := by simpa using hp
      by_cases hq : k1 = k'
      · subst hq
        simp [dictPop, List.filter_cons, hb, dictGet]
      · simp [dictPop, List.filter_cons, hb, dictGet, hq, ih']

theorem dictGet_dictSet_self (d : Doc) (k v : String) :
    dictGet (dictSet d k v) k = some v := by
  induction d with
  | nil => simp [dictSet, dictGet]
  | cons p rest ih =>
    obtain ⟨k1, v1⟩ := p
    by_cases hp : k1 = k
    · subst hp
      simp [dictSet, dictGet]
    · simp [dictSet, dictGet, hp, ih]

/-- C8 counterexample: the handler maps a caller-supplied limit of 0 to the
default 20 (`limit or 20`), so with one stored record and limit 0 the
listing returns one item, more than the caller-supplied limit. -/
theorem c8_counterexample :
    ¬ ((list_jobs [[("_id", "x")]] (some 0)).length ≤ 0) := by decide

/-- C8 amended: for a positive caller-supplied limit the listing returns at
most that many records (a limit of 0, like an absent one, is treated as the
default 20), and every returned item carries a string id field and no raw
internal identifier field. -/
theorem c8_amended_listing (records : List Doc) (limit : Int) (hpos : 0 < limit) :
    (list_jobs records (some limit)).length ≤ limit.toNat
      ∧ (list_jobs records none).length ≤ 20
      ∧ (list_jobs records (some 0)).length ≤ 20
      ∧ ∀ d ∈ list_jobs records (some limit),
          (∃ v, dictGet d "id" = some v) ∧ dictGet d "_id" = none := by
  have hne : limit ≠ 0 := by omega
  refine ⟨?_, ?_, ?_, ?_⟩
  · simp [list_jobs, get_documents, hne, List.length_take]
  · simp [list_jobs, get_documents, List.length_take]
  · simp [list_jobs, get_documents, List.length_take]
  · intro d hd
    simp only [list_jobs, get_documents, hne, if_neg, List.mem_map] at hd
    obtain ⟨d0, hd0, hdd⟩ := hd
    subst hdd
    refine ⟨⟨strOfGet d0, ?_⟩, ?_⟩
    · unfold normalizeDoc
      rw [dictGet_dictPop_of_ne _ _ _ (by decide)]
      exact dictGet_dictSet_self _ _ _
    · unfold normalizeDoc
      exact dictGet_dictPop_self _ _

theorem c3_witness :
    ∃ d, create_job {} "jobuuid" "dbid" badModeInput = (.error (400, d), {}) :=
  c3_validation_rejects {} "jobuuid" "dbid" badModeInput (Or.inl (by decide))

theorem c4_witness :
    runNoneResp.subtitle_url = none ∧
      runNoneSt.fs.subtitles = ({} : ServerState).fs.subtitles ∧
      ∃ j, runNoneSt.db = ({} : ServerState).db ++ [j] ∧
        j.subtitle_path = none ∧ j.subtitle_url = none :=
  c4_none_mode_no_subtitle {} "jobuuid" "dbid" sampleInputNone runNoneResp runNoneSt rfl (by decide)

theorem c5_witness :
    sampleInput.subtitle_mode = "custom" ∧
      sampleInput.custom_subtitle_text = some "Hello" ∧
      runCustomSt.fs.subtitles = ({} : ServerState).fs.subtitles ++
        [("jobuuid" ++ ".srt",
          "1\n00:00:00,000 --> 00:00:02,000\n" ++ "Hello" ++ "\n" ++ styleHint sampleInput)] :=
  ⟨rfl, rfl, c5_custom_hello_cue {} "jobuuid" "dbid" sampleInput runCustomResp runCustomSt rfl rfl (by decide)⟩

theorem c7_witness :
    (5 : Int) ≤ sampleInput.duration_seconds ∧ sampleInput.duration_seconds ≤ 180 ∧
      ∃ j, runCustomSt.db = ({} : ServerState).db ++ [j]
        ∧ 5 ≤ j.duration_seconds ∧ j.duration_seconds ≤ 180
        ∧ (j.subtitle_mode = "none" ∨ j.subtitle_mode = "auto" ∨ j.subtitle_mode = "custom")
        ∧ (j.subtitle_position = "top" ∨ j.subtitle_position = "middle" ∨ j.subtitle_position = "bottom")
        ∧ (∀ q, sampleInput.subtitle_position = some q → q ≠ "top" → q ≠ "middle" → q ≠ "bottom" →
              j.subtitle_position = "bottom")
        ∧ (∀ s, j.viral_score = some s → 0 ≤ s ∧ s ≤ 100)
        ∧ j.status = "done" :=
  ⟨by decide, by decide,
    c7_persisted_invariants {} "jobuuid" "dbid" sampleInput runCustomResp runCustomSt
      (by decide) (by decide) (by decide)⟩

theorem c9_witness :
    runCustomResp.id = "dbid" ∧ runCustomResp.id ≠ "jobuuid"
      ∧ runCustomResp.download_url = some ("/api/download/" ++ "jobuuid")
      ∧ (runCustomResp.subtitle_url = none ∨
          runCustomResp.subtitle_url = some ("/api/subtitles/" ++ "jobuuid"))
      ∧ ("jobuuid" ++ ".mp4") ∈ (runCustomSt.fs.outputs.map Prod.fst)
      ∧ download_output (runCustomSt.fs.outputs.map Prod.fst) "dbid" ≠ .ok ("jobuuid" ++ ".mp4") :=
  c9_response_id_not_artifact_id {} "jobuuid" "dbid" sampleInput runCustomResp runCustomSt
    (by decide) (by decide) (by decide)

theorem c10_witness :
    (sampleInputEmptyText.subtitle_mode = "auto" ∨ sampleInputEmptyText.subtitle_mode = "custom") ∧
      (sampleInputEmptyText.custom_subtitle_text = some "" ∨
        sampleInputEmptyText.custom_subtitle_text = none) ∧
      runEmptySt.fs.subtitles = ({} : ServerState).fs.subtitles ++
        [("jobuuid" ++ ".srt",
          "1\n00:00:00,000 --> 00:00:02,000\n" ++
            ("Auto-generated subtitles (" ++ pyOrOpt sampleInputEmptyText.subtitle_language "auto" ++ ")") ++
            "\n" ++ styleHint sampleInputEmptyText)] :=
  ⟨Or.inr rfl, Or.inl rfl,
    c10_empty_text_placeholder {} "jobuuid" "dbid" sampleInputEmptyText runEmptyResp runEmptySt
      (Or.inr rfl) (Or.inl rfl) (by decide)⟩

theorem c8_witness :
    (0 : Int) < 1 ∧
      ((list_jobs [[("_id", "x")]] (some 1)).length ≤ (1 : Int).toNat
        ∧ (list_jobs [[("_id", "x")]] none).length ≤ 20
        ∧ (list_jobs [[("_id", "x")]] (some 0)).length ≤ 20
        ∧ ∀ d ∈ list_jobs [[("_id", "x")]] (some 1),
            (∃ v, dictGet d "id" = some v) ∧ dictGet d "_id" = none) :=
  ⟨by decide, c8_amended_listing [[("_id", "x")]] 1 (by decide)⟩

/-- C2 counterexample: the claim as stated covers a youtube submission whose
URL contains the keyword "money" (duration 30, in [5,180]), but the handler
scores the synthetic youtube_{id}.mp4 name, never the URL, so the computed
viral score is 50, not min(100, clamp(20+30,0,100)+15) = 65. -/
theorem c2_counterexample :
    hasKeyword "https://x.com/make-money-fast" = true ∧
      (5 : Int) ≤ 30 ∧ (30 : Int) ≤ 180 ∧
      create_job {} "jobuuid" "dbid" kwUrlInput = (.ok kwUrlResp, kwUrlSt) ∧
      kwUrlResp.viral_score = some 50 ∧
      kwUrlResp.viral_score ≠ some (min 100 (clamp (20 + 30) 0 100 + 15)) :=
  ⟨by decide, by decide, by decide, by decide, rfl, by decide⟩

/-- C2 amended: the +15 keyword bonus applies exactly when the name the
handler actually scores contains a keyword: `original_name or youtube_url or
"video"` (main.py:147), where a successful source acquisition fixes
original_name to the uploaded filename for uploads and to the synthetic
youtube_{job_id}.mp4 name for youtube sources — so for a youtube submission
the URL itself is never the scored name. When that scored name has a keyword
hit, the returned viral score equals min(100, clamp(20+d,0,100)+15). -/
theorem c2_keyword_in_scored_name (st : ServerState) (jid did : String)
    (input : CreateJobInput) (resp : JobResponse) (st' : ServerState) (n sn sc : String)
    (h5 : 5 ≤ input.duration_seconds) (h180 : input.duration_seconds ≤ 180)
    (hacq : sourceAcq jid input = .ok (n, sn, sc))
    (hk : hasKeyword (pyOrS n (pyOrOpt input.youtube_url "video")) = true)
    (h : create_job st jid did input = (.ok resp, st')) :
    resp.viral_score = some (min 100 (clamp (20 + input.duration_seconds) 0 100 + 15))
      ∧ (input.source_type = "youtube" → n = "youtube_" ++ jid ++ ".mp4") := by
  obtain ⟨n', sn', sc', hacq', hmem, hresp, hst⟩ := create_job_ok_inv st jid did input resp st' h
  rw [hacq] at hacq'
  simp only [Except.ok.injEq, Prod.mk.injEq] at hacq'
  obtain ⟨hn, hsn, hsc⟩ := hacq'
  subst hn
  subst hresp
  constructor
  · show some (compute_viral_score (pyOrS n (pyOrOpt input.youtube_url "video"))
        input.duration_seconds) = _
    rw [compute_viral_score_keyword _ _ hk]
  · intro hyt
    unfold sourceAcq at hacq
    rw [hyt] at hacq
    simp at hacq
    split at hacq
    · simp at hacq
    · split at hacq
      · simp at hacq
      · simp only [Except.ok.injEq, Prod.mk.injEq] at hacq
        exact hacq.1.symm

theorem c2_witness :
    (5 : Int) ≤ sampleInputKw.duration_seconds ∧ sampleInputKw.duration_seconds ≤ 180 ∧
      sourceAcq "jobuuid" sampleInputKw =
        .ok ("amazing_trick.mp4", "jobuuid_amazing_trick.mp4", "RAWBYTES") ∧
      hasKeyword (pyOrS "amazing_trick.mp4" (pyOrOpt sampleInputKw.youtube_url "video")) = true ∧
      create_job {} "jobuuid" "dbid" sampleInputKw = (.ok kwNameResp, kwNameSt) ∧
      (kwNameResp.viral_score =
          some (min 100 (clamp (20 + sampleInputKw.duration_seconds) 0 100 + 15))
        ∧ (sampleInputKw.source_type = "youtube" →
            "amazing_trick.mp4" = "youtube_" ++ "jobuuid" ++ ".mp4")) :=
  ⟨by decide, by decide, by decide, by decide, by decide,
    c2_keyword_in_scored_name {} "jobuuid" "dbid" sampleInputKw kwNameResp kwNameSt
      "amazing_trick.mp4" "jobuuid_amazing_trick.mp4" "RAWBYTES"
      (by decide) (by decide) (by decide) (by decide) (by decide)⟩
